import Mathlib

/-!
# Verification of the interaction-tracking and event-emission subsystem

Shallow embedding of the tracking core of the mini-app (the `trackEvent`
transport function and the `useInteractionTracking` hook): the event-payload
builder, the fire-and-forget transport, and the per-screen-instance
interaction tracker (view, scroll-depth and view-duration events).

Modelling conventions:
* JS `null`/`undefined` on the profile is `Option`; the JS `||` fallback on
  a string field (falsy on `undefined` and on `""`) is `jsOr`.
* Times are integer milliseconds (`Date.now()`); the durations and scroll
  percentages the code computes with `/` are exact rationals (`ℚ`).
* The wall clock rendered by `new Date().toISOString()` is passed in as the
  string it produces.
* The side effects of the hook (calling `trackEvent`, attaching and
  detaching the scroll listener) are reified as a trace of `TrackAction`s.
* The nondeterministic outcome of the `fetch` call is a `TransportOutcome`
  parameter; a thrown/rejected error is `Except.error`, which the
  `try/catch` in `trackEvent` turns back into `Except.ok`.
-/

/-- The LINE profile object (`{displayName, pictureUrl, userId}`); each field
is optional so that the `||` fallbacks in `trackEvent` are observable. -/
structure LineProfile where
  displayName : Option String
  pictureUrl : Option String
  userId : Option String
deriving DecidableEq, Repr

/-- JS `v || d` for an optional string `v`: falls back on `undefined`/missing
and on the empty string (both falsy in JS). -/
def jsOr : Option String → String → String
  | none, d => d
  | some s, d => if s = "" then d else s

/-- The event record built at the top of `trackEvent`
(`eventName`, `eventTimestamp`, `prop1`..`prop3`). -/
structure EventData where
  eventName : String
  eventTimestamp : String
  prop1 : String
  prop2 : String
  prop3 : String
deriving DecidableEq, Repr

/-- The `eventData` object literal in `trackEvent`:
`prop1 = lineProfile?.displayName || 'Unknown'`,
`prop2 = lineProfile?.pictureUrl || 'N/A'`,
`prop3 = lineProfile?.userId || 'Unknown'`. -/
def buildEventData (eventName : String) (lineProfile : Option LineProfile)
    (nowIso : String) : EventData :=
  { eventName := eventName
    eventTimestamp := nowIso
    prop1 := jsOr (lineProfile.bind (·.displayName)) "Unknown"
    prop2 := jsOr (lineProfile.bind (·.pictureUrl)) "N/A"
    prop3 := jsOr (lineProfile.bind (·.userId)) "Unknown" }

/-- Outcome of the `fetch` POST to the collector endpoint. -/
inductive TransportOutcome where
  | success
  | networkFailure
  | serializationFailure
deriving DecidableEq, Repr

/-- The body of the `try` block in `trackEvent`: `JSON.stringify` plus
`await fetch(...)`; a rejection or throw is an `Except.error`. -/
def attemptDelivery (payload : EventData) (outcome : TransportOutcome) :
    Except String Unit :=
  match outcome with
  | .success => .ok ()
  | .networkFailure => .error ("Failed to track event: " ++ payload.eventName)
  | .serializationFailure => .error ("Failed to serialize: " ++ payload.eventName)

/-- The `trackEvent` function: builds the payload, attempts delivery, and catches any
failure inside its own `try/catch` (the `catch` only logs). -/
def trackEvent (eventName : String) (lineProfile : Option LineProfile)
    (nowIso : String) (outcome : TransportOutcome) : Except String Unit :=
  let eventData := buildEventData eventName lineProfile nowIso
  match attemptDelivery eventData outcome with
  | .ok _ => .ok ()
  | .error _ => .ok ()

/-- The per-screen-instance tracker state held by the hook's refs:
`viewStartTime = useRef(Date.now())`, `hasTrackedViewDuration = useRef(false)`,
`hasTrackedScroll = useRef(false)`, together with the `screenName` the hook
was invoked with. -/
structure TrackerState where
  screenName : String
  viewStartTime : Int
  hasTrackedViewDuration : Bool
  hasTrackedScroll : Bool
deriving DecidableEq, Repr

/-- The ref initialisation on mount: `viewStartTime` is the mount-time clock,
both one-shot flags start `false`. -/
def initTracker (screenName : String) (now : Int) : TrackerState :=
  { screenName := screenName
    viewStartTime := now
    hasTrackedViewDuration := false
    hasTrackedScroll := false }

/-- The measurements destructured from `mainRef.current` inside
`handleScroll` (`scrollTop`, `scrollHeight`, `clientHeight`). -/
structure ScrollMetrics where
  scrollTop : ℚ
  scrollHeight : ℚ
  clientHeight : ℚ
deriving DecidableEq, Repr

/-- The scroll percentage `(scrollTop / (scrollHeight - clientHeight)) * 100`. -/
def ScrollMetrics.scrollPercent (m : ScrollMetrics) : ℚ :=
  m.scrollTop / (m.scrollHeight - m.clientHeight) * 100

/-- An observable side effect of the hook: a `trackEvent` call with an event
name and the profile in scope, or attaching/detaching the scroll listener on
the viewport element. -/
inductive TrackAction where
  | emit (eventName : String) (lineProfile : Option LineProfile)
  | attachListener
  | detachListener
deriving DecidableEq, Repr

/-- Whether an action is a `trackEvent` call. -/
def TrackAction.isEmit : TrackAction → Bool
  | .emit _ _ => true
  | _ => false

/-- The `trackEvent` calls of a trace, in order. -/
def emitsOf (tr : List TrackAction) : List TrackAction := tr.filter TrackAction.isEmit

/-- The `handleScroll` closure: if the viewport ref is set and the scroll
flag is still unset, read the metrics; bail out when
`scrollHeight <= clientHeight`; otherwise emit the scroll-depth event and set
the flag exactly when the scroll percentage exceeds 70. -/
def handleScroll (lineProfile : Option LineProfile)
    (refCur : Option ScrollMetrics) (st : TrackerState) :
    TrackerState × List TrackAction :=
  match refCur with
  | some m =>
    if st.hasTrackedScroll then (st, [])
    else if m.scrollHeight ≤ m.clientHeight then (st, [])
    else if 70 < m.scrollPercent then
      ({ st with hasTrackedScroll := true },
        [.emit ("scroll_depth_over_70%_on_" ++ st.screenName) lineProfile])
    else (st, [])
  | none => (st, [])

/-- The effect body run on mount (and on each effect re-run): emit the view
event when a profile is in scope, then attach the scroll listener when the
viewport ref is set. -/
def effectBody (screenName : String) (lineProfile : Option LineProfile)
    (refPresent : Bool) : List TrackAction :=
  (match lineProfile with
   | some _ => [TrackAction.emit ("view_" ++ screenName) lineProfile]
   | none => []) ++
  (if refPresent then [TrackAction.attachListener] else [])

/-- The effect cleanup: detach the listener when `currentRef` was set, then,
if the duration flag is still unset, compute
`duration = (now - viewStartTime) / 1000`, emit the duration event when
`duration > 5`, and set the flag either way. -/
def cleanupEffect (lineProfile : Option LineProfile) (refPresent : Bool)
    (now : Int) (st : TrackerState) : TrackerState × List TrackAction :=
  let detachActs : List TrackAction := if refPresent then [.detachListener] else []
  if st.hasTrackedViewDuration then (st, detachActs)
  else
    let duration : ℚ := ((now - st.viewStartTime : Int) : ℚ) / 1000
    if 5 < duration then
      ({ st with hasTrackedViewDuration := true },
        detachActs ++ [.emit ("view_duration_over_5s_on_" ++ st.screenName)
          lineProfile])
    else ({ st with hasTrackedViewDuration := true }, detachActs)

/-- A sequence of scroll notifications delivered to `handleScroll` (the
viewport ref is set, since the listener that fires is attached to it). -/
def runScrolls (lineProfile : Option LineProfile) (st : TrackerState) :
    List ScrollMetrics → TrackerState × List TrackAction
  | [] => (st, [])
  | m :: ms =>
    let r1 := handleScroll lineProfile (some m) st
    let r2 := runScrolls lineProfile r1.1 ms
    (r2.1, r1.2 ++ r2.2)

/-- Effect of one action on whether the scroll listener is attached to the
viewport element. -/
def applyTrackAction (attached : Bool) : TrackAction → Bool
  | .attachListener => true
  | .detachListener => false
  | .emit _ _ => attached

/-- Whether the scroll listener is attached after a trace of actions. -/
def attachedAfter (attached : Bool) (tr : List TrackAction) : Bool :=
  tr.foldl applyTrackAction attached

/-- Whether an action is a `trackEvent` call for the `view_<screenName>`
event. -/
def isViewEmit (screenName : String) : TrackAction → Bool
  | .emit n _ => n == "view_" ++ screenName
  | _ => false

/-- Number of `view_<screenName>` emissions in a trace. -/
def countViewEmits (screenName : String) (tr : List TrackAction) : Nat :=
  tr.countP (isViewEmit screenName)

/-- An occurrence during one mounted lifetime of a screen component: a
scroll notification, or the `lineProfile` prop changing (which makes React
run the effect cleanup with the old closure and then the effect body with
the new value, the refs persisting). -/
inductive InstanceEvent where
  | scrollNotify (m : ScrollMetrics)
  | profileChange (newProfile : Option LineProfile) (time : Int)
deriving DecidableEq, Repr

/-- The live state of a mounted screen component: the refs plus the profile
captured by the currently installed effect closure. -/
structure InstState where
  tracker : TrackerState
  profile : Option LineProfile
deriving DecidableEq, Repr

/-- One occurrence processed against the live state. A scroll notification
runs `handleScroll` with the closure's profile; a profile change runs the
cleanup of the old effect, then the body of the new one. -/
def stepInstance (refPresent : Bool) (s : InstState) :
    InstanceEvent → InstState × List TrackAction
  | .scrollNotify m =>
    let r := handleScroll s.profile (if refPresent then some m else none)
      s.tracker
    ({ s with tracker := r.1 }, r.2)
  | .profileChange pNew t =>
    let r := cleanupEffect s.profile refPresent t s.tracker
    ({ tracker := r.1, profile := pNew },
      r.2 ++ effectBody s.tracker.screenName pNew refPresent)

/-- A sequence of occurrences processed in order. -/
def runEvents (refPresent : Bool) (s : InstState) :
    List InstanceEvent → InstState × List TrackAction
  | [] => (s, [])
  | ev :: evs =>
    let r1 := stepInstance refPresent s ev
    let r2 := runEvents refPresent r1.1 evs
    (r2.1, r1.2 ++ r2.2)

/-- A whole mount-to-unmount lifetime of a screen instance: ref
initialisation and first effect run at mount time `t0` with profile `p0`,
then the in-life occurrences, then the final effect cleanup at unmount time
`tEnd`. The result is the full trace of actions. -/
def runInstance (screenName : String) (p0 : Option LineProfile)
    (refPresent : Bool) (t0 : Int) (evs : List InstanceEvent)
    (tEnd : Int) : List TrackAction :=
  let s0 : InstState := ⟨initTracker screenName t0, p0⟩
  let r := runEvents refPresent s0 evs
  effectBody screenName p0 refPresent ++ r.2 ++
    (cleanupEffect r.1.profile refPresent tEnd r.1.tracker).2

/-- Lemma: `handleScroll` is a no-op once the scroll flag is set. -/
theorem handleScroll_flag_true (p : Option LineProfile)
    (r : Option ScrollMetrics) (st : TrackerState)
    (h : st.hasTrackedScroll = true) : handleScroll p r st = (st, []) := by
  cases r with
  | none => rfl
  | some m => simp [handleScroll, h]

/-- Lemma: `handleScroll` is a no-op when the viewport has no scrollable overflow. -/
theorem handleScroll_small (p : Option LineProfile) (m : ScrollMetrics)
    (st : TrackerState) (h2 : m.scrollHeight ≤ m.clientHeight) :
    handleScroll p (some m) st = (st, []) := by
  by_cases h1 : st.hasTrackedScroll <;> simp [handleScroll, h1, h2]

/-- Lemma: `handleScroll` is a no-op when the scroll percentage does not exceed 70. -/
theorem handleScroll_below (p : Option LineProfile) (m : ScrollMetrics)
    (st : TrackerState) (h3 : ¬ 70 < m.scrollPercent) :
    handleScroll p (some m) st = (st, []) := by
  by_cases h1 : st.hasTrackedScroll <;>
    by_cases h2 : m.scrollHeight ≤ m.clientHeight <;>
    simp [handleScroll, h1, h2, h3]

/-- When the flag is unset, the viewport overflows and the percentage
exceeds 70, `handleScroll` emits the scroll-depth event and sets the flag. -/
theorem handleScroll_fire (p : Option LineProfile) (m : ScrollMetrics)
    (st : TrackerState) (h1 : st.hasTrackedScroll = false)
    (h2 : ¬ m.scrollHeight ≤ m.clientHeight) (h3 : 70 < m.scrollPercent) :
    handleScroll p (some m) st =
      ({ st with hasTrackedScroll := true },
        [.emit ("scroll_depth_over_70%_on_" ++ st.screenName) p]) := by
  simp [handleScroll, h1, h2, h3]

/-- Once the scroll flag is set, a whole sequence of notifications is a
no-op. -/
theorem runScrolls_flag_true (p : Option LineProfile) (st : TrackerState)
    (ms : List ScrollMetrics) (h : st.hasTrackedScroll = true) :
    runScrolls p st ms = (st, []) := by
  induction ms with
  | nil => rfl
  | cons m ms ih => simp [runScrolls, handleScroll_flag_true p (some m) st h, ih]

/-- A sequence of notifications none of which exceeds the 70% threshold
leaves the state unchanged and emits nothing. -/
theorem runScrolls_no_fire (p : Option LineProfile) (st : TrackerState)
    (ms : List ScrollMetrics) (h : ∀ x ∈ ms, ¬ 70 < x.scrollPercent) :
    runScrolls p st ms = (st, []) := by
  induction ms with
  | nil => rfl
  | cons m ms ih =>
    have hm := handleScroll_below p m st (h m (by simp))
    simp only [runScrolls, hm]
    simp [ih fun x hx => h x (by simp [hx])]

/-- Processing an appended sequence processes the two halves in order. -/
theorem runScrolls_append (p : Option LineProfile) (st : TrackerState)
    (ms1 ms2 : List ScrollMetrics) :
    runScrolls p st (ms1 ++ ms2) =
      ((runScrolls p (runScrolls p st ms1).1 ms2).1,
        (runScrolls p st ms1).2 ++ (runScrolls p (runScrolls p st ms1).1 ms2).2) := by
  induction ms1 generalizing st with
  | nil => simp [runScrolls]
  | cons m ms1 ih => simp [runScrolls, ih, List.append_assoc]

/-- Any sequence of scroll notifications causes at most one `trackEvent`
call, from any starting state. -/
theorem runScrolls_at_most_one_emit (p : Option LineProfile)
    (st : TrackerState) (ms : List ScrollMetrics) :
    (emitsOf (runScrolls p st ms).2).length ≤ 1 := by
  induction ms generalizing st with
  | nil => simp [runScrolls, emitsOf]
  | cons m ms ih =>
    by_cases h1 : st.hasTrackedScroll
    · rw [runScrolls_flag_true p st (m :: ms) h1]; simp [emitsOf]
    · by_cases h2 : m.scrollHeight ≤ m.clientHeight
      · simp only [runScrolls, handleScroll_small p m st h2]
        simpa using ih st
      · by_cases h3 : 70 < m.scrollPercent
        · have hb : st.hasTrackedScroll = false := by simpa using h1
          simp only [runScrolls, handleScroll_fire p m st hb h2 h3,
            runScrolls_flag_true p { st with hasTrackedScroll := true } ms rfl]
          simp [emitsOf, TrackAction.isEmit]
        · simp only [runScrolls, handleScroll_below p m st h3]
          simpa using ih st

/-- C4: For every screen instance whose viewport has
`scrollHeight <= clientHeight` (no scrollable overflow), no scroll-depth
event is ever emitted, regardless of how many scroll notifications are
received and what their `scrollTop` values are. -/
theorem no_scroll_event_without_overflow (screenName : String)
    (p : Option LineProfile) (t : Int) (ms : List ScrollMetrics)
    (h : ∀ m ∈ ms, m.scrollHeight ≤ m.clientHeight) :
    (runScrolls p (initTracker screenName t) ms).2 = [] := by
  suffices hgen : ∀ st : TrackerState, (runScrolls p st ms).2 = [] from
    hgen (initTracker screenName t)
  induction ms with
  | nil => intro st; rfl
  | cons m ms ih =>
    intro st
    have hm := handleScroll_small p m st (h m (by simp))
    simp only [runScrolls, hm]
    simp [ih fun x hx => h x (by simp [hx])]

/-- Witness for C4: a concrete instance whose viewport never overflows
emits nothing over a concrete notification sequence. -/
theorem no_scroll_event_without_overflow_witness :
    (runScrolls none (initTracker "welcome" 0)
      [⟨300, 500, 500⟩, ⟨499, 500, 500⟩]).2 = [] :=
  no_scroll_event_without_overflow "welcome" none 0
    [⟨300, 500, 500⟩, ⟨499, 500, 500⟩]
    (by intro m hm; fin_cases hm <;> norm_num)

/-- C1: For a screen instance whose scrollable range is positive, over any
sequence of scroll notifications the scroll-depth event is emitted at most
once, and only at the first notification whose scroll percentage
`scrollTop/(scrollHeight-clientHeight)*100` strictly exceeds 70: before that
notification nothing is emitted, at it exactly the one event is emitted and
the scroll-reported flag becomes true, and every later notification emits
nothing. -/
theorem scroll_depth_once_at_first_crossing (screenName : String)
    (p : Option LineProfile) (t : Int) (ms₁ ms₂ : List ScrollMetrics)
    (m : ScrollMetrics)
    (hrange : ∀ x ∈ ms₁ ++ m :: ms₂, 0 < x.scrollHeight - x.clientHeight)
    (hfirst : ∀ x ∈ ms₁, ¬ 70 < x.scrollPercent)
    (hfire : 70 < m.scrollPercent) :
    (emitsOf (runScrolls p (initTracker screenName t) (ms₁ ++ m :: ms₂)).2).length ≤ 1
    ∧ (runScrolls p (initTracker screenName t) ms₁).2 = []
    ∧ (runScrolls p (initTracker screenName t) (ms₁ ++ [m])).2 =
        [.emit ("scroll_depth_over_70%_on_" ++ screenName) p]
    ∧ (runScrolls p (initTracker screenName t) (ms₁ ++ [m])).1.hasTrackedScroll = true
    ∧ (runScrolls p (initTracker screenName t) (ms₁ ++ m :: ms₂)).2 =
        [.emit ("scroll_depth_over_70%_on_" ++ screenName) p] := by
  have hm2 : ¬ m.scrollHeight ≤ m.clientHeight := by
    have := hrange m (by simp)
    intro hle; linarith
  have hpre := runScrolls_no_fire p (initTracker screenName t) ms₁ hfirst
  have hstep : handleScroll p (some m) (initTracker screenName t) =
      ({ screenName := screenName, viewStartTime := t,
          hasTrackedViewDuration := false, hasTrackedScroll := true },
        [.emit ("scroll_depth_over_70%_on_" ++ screenName) p]) := by
    simpa [initTracker] using
      handleScroll_fire p m (initTracker screenName t) rfl hm2 hfire
  have hone : runScrolls p (initTracker screenName t) (ms₁ ++ [m]) =
      ({ screenName := screenName, viewStartTime := t,
          hasTrackedViewDuration := false, hasTrackedScroll := true },
        [.emit ("scroll_depth_over_70%_on_" ++ screenName) p]) := by
    rw [runScrolls_append, hpre]
    simp [runScrolls, hstep]
  refine ⟨runScrolls_at_most_one_emit p _ _, by rw [hpre], ?_, ?_, ?_⟩
  · rw [hone]
  · rw [hone]
  · have hsplit : ms₁ ++ m :: ms₂ = (ms₁ ++ [m]) ++ ms₂ := by simp
    have hrest := runScrolls_flag_true p
      { screenName := screenName, viewStartTime := t,
        hasTrackedViewDuration := false, hasTrackedScroll := true } ms₂ rfl
    rw [hsplit, runScrolls_append, hone, hrest]
    simp

/-- Witness for C1 on a concrete instance: two shallow scrolls, then a
crossing at 80%, then a further notification; exactly one emission. -/
theorem scroll_depth_once_at_first_crossing_witness :
    (emitsOf (runScrolls none (initTracker "otp_screen" 0)
        ([⟨100, 1000, 500⟩, ⟨350, 1000, 500⟩] ++ ⟨400, 1000, 500⟩ ::
          [⟨450, 1000, 500⟩])).2).length ≤ 1
    ∧ (runScrolls none (initTracker "otp_screen" 0)
        [⟨100, 1000, 500⟩, ⟨350, 1000, 500⟩]).2 = []
    ∧ (runScrolls none (initTracker "otp_screen" 0)
        ([⟨100, 1000, 500⟩, ⟨350, 1000, 500⟩] ++ [⟨400, 1000, 500⟩])).2 =
        [.emit ("scroll_depth_over_70%_on_" ++ "otp_screen") none]
    ∧ (runScrolls none (initTracker "otp_screen" 0)
        ([⟨100, 1000, 500⟩, ⟨350, 1000, 500⟩] ++ [⟨400, 1000, 500⟩])).1.hasTrackedScroll = true
    ∧ (runScrolls none (initTracker "otp_screen" 0)
        ([⟨100, 1000, 500⟩, ⟨350, 1000, 500⟩] ++ ⟨400, 1000, 500⟩ ::
          [⟨450, 1000, 500⟩])).2 =
        [.emit ("scroll_depth_over_70%_on_" ++ "otp_screen") none] :=
  scroll_depth_once_at_first_crossing "otp_screen" none 0
    [⟨100, 1000, 500⟩, ⟨350, 1000, 500⟩] [⟨450, 1000, 500⟩] ⟨400, 1000, 500⟩
    (by intro x hx; fin_cases hx <;> norm_num)
    (by intro x hx; fin_cases hx <;> norm_num [ScrollMetrics.scrollPercent])
    (by norm_num [ScrollMetrics.scrollPercent])

/-- C5: For every event name and every transport outcome (success, network
failure, or serialization failure), `trackEvent` never propagates an
exception or rejection to its caller: it always resolves normally. -/
theorem trackEvent_never_throws (eventName : String)
    (lineProfile : Option LineProfile) (nowIso : String)
    (outcome : TransportOutcome) :
    trackEvent eventName lineProfile nowIso outcome = Except.ok () := by
  cases outcome <;> rfl

/-- C6: The payload builder produces a record whose `eventName` is the given
string verbatim, whose `eventTimestamp` is the clock's ISO rendering at build
time, and whose three profile fields fall back to `"Unknown"`, `"N/A"` and
`"Unknown"` respectively when the corresponding profile field is absent (and
carry the profile's value verbatim when present and non-empty); the
construction is a total function and never fails. -/
theorem buildEventData_spec (eventName : String)
    (lineProfile : Option LineProfile) (nowIso : String) :
    (buildEventData eventName lineProfile nowIso).eventName = eventName
    ∧ (buildEventData eventName lineProfile nowIso).eventTimestamp = nowIso
    ∧ (lineProfile.bind (·.displayName) = none →
        (buildEventData eventName lineProfile nowIso).prop1 = "Unknown")
    ∧ (lineProfile.bind (·.pictureUrl) = none →
        (buildEventData eventName lineProfile nowIso).prop2 = "N/A")
    ∧ (lineProfile.bind (·.userId) = none →
        (buildEventData eventName lineProfile nowIso).prop3 = "Unknown")
    ∧ (∀ s : String, s ≠ "" → lineProfile.bind (·.displayName) = some s →
        (buildEventData eventName lineProfile nowIso).prop1 = s)
    ∧ (∀ s : String, s ≠ "" → lineProfile.bind (·.pictureUrl) = some s →
        (buildEventData eventName lineProfile nowIso).prop2 = s)
    ∧ (∀ s : String, s ≠ "" → lineProfile.bind (·.userId) = some s →
        (buildEventData eventName lineProfile nowIso).prop3 = s) := by
  refine ⟨rfl, rfl, ?_, ?_, ?_, ?_, ?_, ?_⟩ <;>
    simp only [buildEventData] <;> intro s
  · rw [s]; rfl
  · rw [s]; rfl
  · rw [s]; rfl
  · intro hs hbind; rw [hbind]; simp [jsOr, hs]
  · intro hs hbind; rw [hbind]; simp [jsOr, hs]
  · intro hs hbind; rw [hbind]; simp [jsOr, hs]

/-- Witness for C6 at a concrete input: the null profile degrades every
profile field to its fallback literal. -/
theorem buildEventData_spec_witness :
    (buildEventData "view_welcome" none "2025-01-01T00:00:00.000Z").prop1
        = "Unknown"
    ∧ (buildEventData "view_welcome" none "2025-01-01T00:00:00.000Z").prop2
        = "N/A"
    ∧ (buildEventData "view_welcome" none "2025-01-01T00:00:00.000Z").prop3
        = "Unknown" :=
  ⟨(buildEventData_spec "view_welcome" none "2025-01-01T00:00:00.000Z").2.2.1
      rfl,
   (buildEventData_spec "view_welcome" none
      "2025-01-01T00:00:00.000Z").2.2.2.1 rfl,
   (buildEventData_spec "view_welcome" none
      "2025-01-01T00:00:00.000Z").2.2.2.2.1 rfl⟩

/-- Lemma: `handleScroll` never changes the screen name, the start time or the
duration flag. -/
theorem handleScroll_frame (p : Option LineProfile)
    (r : Option ScrollMetrics) (st : TrackerState) :
    (handleScroll p r st).1.screenName = st.screenName
    ∧ (handleScroll p r st).1.viewStartTime = st.viewStartTime
    ∧ (handleScroll p r st).1.hasTrackedViewDuration
        = st.hasTrackedViewDuration := by
  cases r with
  | none => exact ⟨rfl, rfl, rfl⟩
  | some m =>
    simp only [handleScroll]
    split_ifs <;> exact ⟨rfl, rfl, rfl⟩

/-- Lemma: `cleanupEffect` never changes the screen name, the start time or the
scroll flag. -/
theorem cleanupEffect_frame (p : Option LineProfile) (refP : Bool)
    (now : Int) (st : TrackerState) :
    (cleanupEffect p refP now st).1.screenName = st.screenName
    ∧ (cleanupEffect p refP now st).1.viewStartTime = st.viewStartTime
    ∧ (cleanupEffect p refP now st).1.hasTrackedScroll
        = st.hasTrackedScroll := by
  simp only [cleanupEffect]
  split_ifs <;> exact ⟨rfl, rfl, rfl⟩

/-- After `cleanupEffect` the duration flag is always set. -/
theorem cleanupEffect_sets_flag (p : Option LineProfile) (refP : Bool)
    (now : Int) (st : TrackerState) :
    (cleanupEffect p refP now st).1.hasTrackedViewDuration = true := by
  simp only [cleanupEffect]
  split_ifs <;> simp_all

/-- The `trackEvent` calls of a first teardown: exactly the duration event
when the elapsed time exceeds five seconds, nothing otherwise. -/
theorem cleanupEffect_emits (p : Option LineProfile) (refP : Bool)
    (now : Int) (st : TrackerState)
    (h : st.hasTrackedViewDuration = false) :
    emitsOf (cleanupEffect p refP now st).2 =
      if 5 < ((now - st.viewStartTime : Int) : ℚ) / 1000 then
        [TrackAction.emit ("view_duration_over_5s_on_" ++ st.screenName) p]
      else [] := by
  simp only [cleanupEffect]
  rw [if_neg (by simp [h])]
  split_ifs <;> simp [emitsOf, TrackAction.isEmit]

/-- A teardown whose duration flag is already set emits nothing. -/
theorem cleanupEffect_emits_flagged (p : Option LineProfile) (refP : Bool)
    (now : Int) (st : TrackerState)
    (h : st.hasTrackedViewDuration = true) :
    emitsOf (cleanupEffect p refP now st).2 = [] := by
  simp only [cleanupEffect, h]
  cases refP <;> simp [emitsOf, TrackAction.isEmit]

/-- C2: For a screen instance torn down with the duration flag still unset:
if the elapsed duration `(now - viewStartTime)/1000` exceeds 5 seconds,
exactly one `view_duration_over_5s_on_<screenName>` event is emitted at
teardown, and none otherwise; in both cases the duration flag is set to
`true` by that single evaluation, so a second teardown evaluation on the
same instance emits nothing. -/
theorem view_duration_event_once_per_instance (p q : Option LineProfile)
    (refP refQ : Bool) (st : TrackerState) (t1 t2 : Int)
    (h : st.hasTrackedViewDuration = false) :
    emitsOf (cleanupEffect p refP t1 st).2 =
      (if 5 < ((t1 - st.viewStartTime : Int) : ℚ) / 1000 then
        [TrackAction.emit ("view_duration_over_5s_on_" ++ st.screenName) p]
      else [])
    ∧ (cleanupEffect p refP t1 st).1.hasTrackedViewDuration = true
    ∧ emitsOf (cleanupEffect q refQ t2 (cleanupEffect p refP t1 st).1).2
        = [] :=
  ⟨cleanupEffect_emits p refP t1 st h,
   cleanupEffect_sets_flag p refP t1 st,
   cleanupEffect_emits_flagged q refQ t2 _
     (cleanupEffect_sets_flag p refP t1 st)⟩

/-- Witness for C2 at a concrete instance: mounted at 0, torn down at 6000
milliseconds, then a hypothetical second teardown at 7000. -/
theorem view_duration_event_once_per_instance_witness :
    emitsOf (cleanupEffect none true 6000 ⟨"otp_screen", 0, false, false⟩).2 =
      (if 5 < ((6000 - (0 : Int) : Int) : ℚ) / 1000 then
        [TrackAction.emit ("view_duration_over_5s_on_" ++ "otp_screen") none]
      else [])
    ∧ (cleanupEffect none true 6000
        ⟨"otp_screen", 0, false, false⟩).1.hasTrackedViewDuration = true
    ∧ emitsOf (cleanupEffect none true 7000
        (cleanupEffect none true 6000
          ⟨"otp_screen", 0, false, false⟩).1).2 = [] :=
  view_duration_event_once_per_instance none none true true
    ⟨"otp_screen", 0, false, false⟩ 6000 7000 rfl

/-- C7: On every teardown the scroll listener is unregistered from the
viewport region unconditionally and before the duration evaluation step:
the detach action, when the viewport ref was present, is the head of the
cleanup trace, and after the cleanup trace the listener is no longer
attached on any teardown path (mounting attached it exactly when the ref
was present). -/
theorem listener_detached_on_teardown (p : Option LineProfile)
    (refP : Bool) (t : Int) (st : TrackerState) :
    attachedAfter false (effectBody st.screenName p refP) = refP
    ∧ attachedAfter refP (cleanupEffect p refP t st).2 = false
    ∧ (refP = true → (cleanupEffect p refP t st).2.head?
        = some TrackAction.detachListener) := by
  refine ⟨?_, ?_, ?_⟩
  · cases p <;> cases refP <;>
      simp [effectBody, attachedAfter, applyTrackAction]
  · simp only [cleanupEffect]
    cases refP <;> split_ifs <;>
      simp_all [attachedAfter, applyTrackAction]
  · intro hr
    subst hr
    simp only [cleanupEffect]
    split_ifs <;> rfl

/-- Witness for C7 at a concrete teardown with the viewport ref present. -/
theorem listener_detached_on_teardown_witness :
    attachedAfter false (effectBody "welcome" none true) = true
    ∧ attachedAfter true
        (cleanupEffect none true 9000 ⟨"welcome", 0, false, false⟩).2 = false
    ∧ (cleanupEffect none true 9000 ⟨"welcome", 0, false, false⟩).2.head?
        = some TrackAction.detachListener := by
  have h := listener_detached_on_teardown none true 9000
    ⟨"welcome", 0, false, false⟩
  exact ⟨h.1, h.2.1, h.2.2 rfl⟩

/-- C8: `viewStartTime` is set once at creation and never mutated; scroll
evaluation mutates only the scroll flag and teardown only the duration
flag; both flags start `false`, and each flag, once `true`, is never reset
by either operation. -/
theorem tracker_state_frame (screenName : String) (t now : Int)
    (p : Option LineProfile) (refCur : Option ScrollMetrics) (refP : Bool)
    (st : TrackerState) :
    (initTracker screenName t).viewStartTime = t
    ∧ (initTracker screenName t).hasTrackedViewDuration = false
    ∧ (initTracker screenName t).hasTrackedScroll = false
    ∧ (handleScroll p refCur st).1.viewStartTime = st.viewStartTime
    ∧ (handleScroll p refCur st).1.screenName = st.screenName
    ∧ (handleScroll p refCur st).1.hasTrackedViewDuration
        = st.hasTrackedViewDuration
    ∧ (st.hasTrackedScroll = true →
        (handleScroll p refCur st).1.hasTrackedScroll = true)
    ∧ (cleanupEffect p refP now st).1.viewStartTime = st.viewStartTime
    ∧ (cleanupEffect p refP now st).1.screenName = st.screenName
    ∧ (cleanupEffect p refP now st).1.hasTrackedScroll = st.hasTrackedScroll
    ∧ (st.hasTrackedViewDuration = true →
        (cleanupEffect p refP now st).1.hasTrackedViewDuration = true) :=
  ⟨rfl, rfl, rfl,
   (handleScroll_frame p refCur st).2.1,
   (handleScroll_frame p refCur st).1,
   (handleScroll_frame p refCur st).2.2,
   fun h => by rw [handleScroll_flag_true p refCur st h]; exact h,
   (cleanupEffect_frame p refP now st).2.1,
   (cleanupEffect_frame p refP now st).1,
   (cleanupEffect_frame p refP now st).2.2,
   fun _ => cleanupEffect_sets_flag p refP now st⟩

/-- Witness for C8 at concrete inputs: an already-set flag survives a
further scroll evaluation and a further teardown. -/
theorem tracker_state_frame_witness :
    (handleScroll none (some ⟨400, 1000, 500⟩)
        ⟨"otp_screen", 0, false, true⟩).1.hasTrackedScroll = true
    ∧ (cleanupEffect none true 9000
        ⟨"otp_screen", 0, true, false⟩).1.hasTrackedViewDuration = true :=
  ⟨(tracker_state_frame "otp_screen" 0 9000 none (some ⟨400, 1000, 500⟩)
      true ⟨"otp_screen", 0, false, true⟩).2.2.2.2.2.2.1 rfl,
   (tracker_state_frame "otp_screen" 0 9000 none (some ⟨400, 1000, 500⟩)
      true ⟨"otp_screen", 0, true, false⟩).2.2.2.2.2.2.2.2.2.2 rfl⟩

/-- C9: Unlike the view event, the scroll-depth event and the duration
event are emitted even when the profile is null: the scroll and teardown
paths call `trackEvent` with the null profile, producing records whose
profile fields are the fallback literals `"Unknown"` / `"N/A"` /
`"Unknown"`. -/
theorem events_emitted_with_null_profile (st : TrackerState)
    (m : ScrollMetrics) (refP : Bool) (t : Int) (name nowIso : String)
    (h1 : st.hasTrackedScroll = false)
    (h2 : ¬ m.scrollHeight ≤ m.clientHeight)
    (h3 : 70 < m.scrollPercent)
    (h4 : st.hasTrackedViewDuration = false)
    (h5 : 5 < ((t - st.viewStartTime : Int) : ℚ) / 1000) :
    (handleScroll none (some m) st).2 =
      [TrackAction.emit ("scroll_depth_over_70%_on_" ++ st.screenName) none]
    ∧ emitsOf (cleanupEffect none refP t st).2 =
      [TrackAction.emit ("view_duration_over_5s_on_" ++ st.screenName) none]
    ∧ (buildEventData name none nowIso).prop1 = "Unknown"
    ∧ (buildEventData name none nowIso).prop2 = "N/A"
    ∧ (buildEventData name none nowIso).prop3 = "Unknown" := by
  refine ⟨?_, ?_, rfl, rfl, rfl⟩
  · rw [handleScroll_fire none m st h1 h2 h3]
  · rw [cleanupEffect_emits none refP t st h4, if_pos h5]

/-- Witness for C9: concrete null-profile instance, a crossing scroll at
80% and a teardown after 6 seconds. -/
theorem events_emitted_with_null_profile_witness :
    (handleScroll none (some ⟨400, 1000, 500⟩)
        ⟨"welcome", 0, false, false⟩).2 =
      [TrackAction.emit ("scroll_depth_over_70%_on_" ++ "welcome") none]
    ∧ emitsOf (cleanupEffect none true 6000
        ⟨"welcome", 0, false, false⟩).2 =
      [TrackAction.emit ("view_duration_over_5s_on_" ++ "welcome") none]
    ∧ (buildEventData "view_welcome" none "2025-01-01T00:00:00.000Z").prop1
        = "Unknown"
    ∧ (buildEventData "view_welcome" none "2025-01-01T00:00:00.000Z").prop2
        = "N/A"
    ∧ (buildEventData "view_welcome" none "2025-01-01T00:00:00.000Z").prop3
        = "Unknown" :=
  events_emitted_with_null_profile ⟨"welcome", 0, false, false⟩
    ⟨400, 1000, 500⟩ true 6000 "view_welcome" "2025-01-01T00:00:00.000Z"
    rfl (by norm_num) (by norm_num [ScrollMetrics.scrollPercent]) rfl
    (by norm_num)

/-- The duration event's name is never the view event's name for the same
screen. -/
theorem durationName_ne_viewName (sn : String) :
    ("view_duration_over_5s_on_" ++ sn) ≠ ("view_" ++ sn) := by
  intro hcon
  have hlen := congrArg String.length hcon
  rw [String.length_append, String.length_append] at hlen
  have e1 : String.length "view_duration_over_5s_on_" = 25 := rfl
  have e2 : String.length "view_" = 5 := rfl
  rw [e1, e2] at hlen
  omega

/-- The scroll-depth event's name is never the view event's name for the
same screen. -/
theorem scrollName_ne_viewName (sn : String) :
    ("scroll_depth_over_70%_on_" ++ sn) ≠ ("view_" ++ sn) := by
  intro hcon
  have hlen := congrArg String.length hcon
  rw [String.length_append, String.length_append] at hlen
  have e1 : String.length "scroll_depth_over_70%_on_" = 25 := rfl
  have e2 : String.length "view_" = 5 := rfl
  rw [e1, e2] at hlen
  omega

/-- Lemma: `countViewEmits` distributes over trace concatenation. -/
theorem countViewEmits_append (sn : String) (a b : List TrackAction) :
    countViewEmits sn (a ++ b) = countViewEmits sn a + countViewEmits sn b := by
  simp [countViewEmits, List.countP_append]

/-- Scroll evaluation never emits the view event of its own screen. -/
theorem countViewEmits_handleScroll (p : Option LineProfile)
    (r : Option ScrollMetrics) (st : TrackerState) :
    countViewEmits st.screenName (handleScroll p r st).2 = 0 := by
  cases r with
  | none => rfl
  | some m =>
    simp only [handleScroll]
    split_ifs <;>
      simp [countViewEmits, isViewEmit, scrollName_ne_viewName st.screenName]

/-- Teardown never emits the view event of its own screen. -/
theorem countViewEmits_cleanupEffect (p : Option LineProfile) (refP : Bool)
    (now : Int) (st : TrackerState) :
    countViewEmits st.screenName (cleanupEffect p refP now st).2 = 0 := by
  simp only [cleanupEffect]
  cases refP <;> split_ifs <;>
    simp [countViewEmits, isViewEmit, durationName_ne_viewName st.screenName]

/-- An effect run with a null profile emits no view event. -/
theorem countViewEmits_effectBody_none (sn : String) (refP : Bool) :
    countViewEmits sn (effectBody sn none refP) = 0 := by
  cases refP <;> simp [effectBody, countViewEmits, isViewEmit]

/-- One occurrence never changes the screen name held by the refs. -/
theorem stepInstance_screenName (refP : Bool) (s : InstState)
    (ev : InstanceEvent) :
    (stepInstance refP s ev).1.tracker.screenName
      = s.tracker.screenName := by
  cases ev with
  | scrollNotify m =>
    exact (handleScroll_frame s.profile _ s.tracker).1
  | profileChange pp tt =>
    exact (cleanupEffect_frame s.profile refP tt s.tracker).1

/-- A whole sequence of occurrences never changes the screen name. -/
theorem runEvents_screenName (refP : Bool) (s : InstState)
    (evs : List InstanceEvent) :
    (runEvents refP s evs).1.tracker.screenName
      = s.tracker.screenName := by
  induction evs generalizing s with
  | nil => rfl
  | cons ev evs ih =>
    simp only [runEvents]
    rw [ih (stepInstance refP s ev).1, stepInstance_screenName]

/-- If the closure's profile is null and an occurrence does not change it to
a non-null value, the profile stays null. -/
theorem stepInstance_profile_none (refP : Bool) (s : InstState)
    (hs : s.profile = none) (ev : InstanceEvent)
    (hev : ∀ pp tt, ev = InstanceEvent.profileChange pp tt → pp = none) :
    (stepInstance refP s ev).1.profile = none := by
  cases ev with
  | scrollNotify m => exact hs
  | profileChange pp tt => exact hev pp tt rfl

/-- An occurrence processed while the profile is null and stays null emits
no view event. -/
theorem stepInstance_no_view_emit (refP : Bool) (s : InstState)
    (ev : InstanceEvent)
    (hev : ∀ pp tt, ev = InstanceEvent.profileChange pp tt → pp = none) :
    countViewEmits s.tracker.screenName (stepInstance refP s ev).2 = 0 := by
  cases ev with
  | scrollNotify m =>
    exact countViewEmits_handleScroll s.profile _ s.tracker
  | profileChange pp tt =>
    have hpp := hev pp tt rfl
    subst hpp
    simp only [stepInstance]
    rw [countViewEmits_append,
      countViewEmits_cleanupEffect s.profile refP tt s.tracker,
      countViewEmits_effectBody_none s.tracker.screenName refP]

/-- Over a whole sequence of occurrences none of which brings a non-null
profile, the profile stays null and no view event is emitted. -/
theorem runEvents_no_view_emit (refP : Bool) (s : InstState)
    (evs : List InstanceEvent) (hs : s.profile = none)
    (hall : ∀ pp tt, InstanceEvent.profileChange pp tt ∈ evs → pp = none) :
    (runEvents refP s evs).1.profile = none
    ∧ countViewEmits s.tracker.screenName (runEvents refP s evs).2 = 0 := by
  induction evs generalizing s with
  | nil => exact ⟨hs, rfl⟩
  | cons ev evs ih =>
    have hev : ∀ pp tt, ev = InstanceEvent.profileChange pp tt → pp = none :=
      fun pp tt h => hall pp tt (by rw [← h]; exact List.mem_cons_self ev evs)
    have hall' : ∀ pp tt,
        InstanceEvent.profileChange pp tt ∈ evs → pp = none :=
      fun pp tt h => hall pp tt (List.mem_cons_of_mem _ h)
    have hs1 := stepInstance_profile_none refP s hs ev hev
    obtain ⟨i1, i2⟩ := ih (stepInstance refP s ev).1 hs1 hall'
    constructor
    · simpa [runEvents] using i1
    · simp only [runEvents]
      rw [countViewEmits_append,
        stepInstance_no_view_emit refP s ev hev,
        ← stepInstance_screenName refP s ev]
      simpa using i2

/-- C3 counterexample: a concrete instance activated with a null profile
whose profile becomes available later within the same instance DOES emit a
`view_welcome` event (the effect's dependency array contains the profile,
so its arrival re-runs the effect body), contradicting the claim that no
view event is emitted during the instance's entire lifetime. -/
theorem view_event_emitted_on_late_profile_arrival :
    0 < countViewEmits "welcome"
      (runInstance "welcome" none true 0
        [InstanceEvent.profileChange
          (some ⟨some "LINE User", some "url", some "U1"⟩) 1000] 2000) := by
  have h1 : ¬ (5 : ℚ) < ((1000 - 0 : Int) : ℚ) / 1000 := by norm_num
  simp [runInstance, runEvents, stepInstance, cleanupEffect, effectBody,
    initTracker, countViewEmits, isViewEmit, h1]

/-- C3 (amended): For every screen instance activated while the profile is
null, no `view_<screenName>` event is emitted as long as the profile stays
null for the rest of the instance's lifetime; if the profile does become
available within the same instance, the effect re-runs and a view event is
then emitted (there IS a retry on later profile arrival). -/
theorem no_view_event_while_profile_stays_null (screenName : String)
    (refP : Bool) (t0 tEnd : Int) (evs : List InstanceEvent)
    (hall : ∀ pp tt, InstanceEvent.profileChange pp tt ∈ evs → pp = none) :
    countViewEmits screenName
      (runInstance screenName none refP t0 evs tEnd) = 0 := by
  obtain ⟨h1, h2⟩ := runEvents_no_view_emit refP
    ⟨initTracker screenName t0, none⟩ evs rfl hall
  have h2' : countViewEmits screenName
      (runEvents refP ⟨initTracker screenName t0, none⟩ evs).2 = 0 := h2
  have hsn : (runEvents refP ⟨initTracker screenName t0, none⟩
      evs).1.tracker.screenName = screenName :=
    runEvents_screenName refP ⟨initTracker screenName t0, none⟩ evs
  have h3 := countViewEmits_cleanupEffect
    (runEvents refP ⟨initTracker screenName t0, none⟩ evs).1.profile refP tEnd
    (runEvents refP ⟨initTracker screenName t0, none⟩ evs).1.tracker
  rw [hsn] at h3
  have h0 : countViewEmits screenName (effectBody screenName none refP) = 0 :=
    countViewEmits_effectBody_none screenName refP
  simp only [runInstance]
  rw [countViewEmits_append, countViewEmits_append, h0, h2', h3]

/-- Witness for amended C3: a null-profile instance that scrolls past 70%
and sees only a null profile change emits no view event over its whole
lifetime. -/
theorem no_view_event_while_profile_stays_null_witness :
    countViewEmits "welcome"
      (runInstance "welcome" none true 0
        [InstanceEvent.scrollNotify ⟨400, 1000, 500⟩,
         InstanceEvent.profileChange none 1000] 8000) = 0 :=
  no_view_event_while_profile_stays_null "welcome" true 0 8000
    [InstanceEvent.scrollNotify ⟨400, 1000, 500⟩,
     InstanceEvent.profileChange none 1000]
    (by intro pp tt h
        rcases List.mem_cons.mp h with h1 | h1
        · exact absurd h1 (by simp)
        · have h2 := List.mem_singleton.mp h1
          injection h2 with ha hb)

/-- C10: If the profile changes from null to a value while a screen
instance is mounted, the effect re-runs: the teardown logic runs at the
moment of the change (detaching the listener, evaluating the duration
threshold against the time elapsed so far, consuming the one-shot duration
flag), then a `view_<screenName>` event is emitted for the same instance
and the listener is re-attached; because the duration flag was already
consumed, the final unmount performs no duration evaluation and only
detaches the listener. -/
theorem profile_arrival_reruns_effect (screenName : String)
    (pr : LineProfile) (t0 t1 t2 : Int) :
    runInstance screenName none true t0
        [InstanceEvent.profileChange (some pr) t1] t2 =
      [TrackAction.attachListener, TrackAction.detachListener]
      ++ (if 5 < ((t1 - t0 : Int) : ℚ) / 1000 then
            [TrackAction.emit ("view_duration_over_5s_on_" ++ screenName)
              none]
          else [])
      ++ [TrackAction.emit ("view_" ++ screenName) (some pr),
          TrackAction.attachListener, TrackAction.detachListener] := by
  simp only [runInstance, runEvents, stepInstance, cleanupEffect, effectBody,
    initTracker]
  split_ifs <;> simp_all
